import Mathlib

/-!
Shallow embedding of `src/lib/metrics.ts` (TalentTrack motion-analysis core).

JavaScript numbers are modelled as elements of a linear ordered field
(instantiated at `ℚ` for the computable detectors and at `ℝ` where the
geometry kernel's `sqrt`/`acos` appear).  A JavaScript value that may be
`null`/`undefined` is modelled as `Option`; an expression that would throw a
`TypeError` (property access on `undefined`) is modelled with `Except Unit`.
`Number(x.toFixed(n))` is modelled as rounding to `n` decimal places.
-/

namespace Metrics

/-- Model of `Number(x.toFixed(n))`: round to `n` decimal places.
(JavaScript rounds halves away from zero; `round` rounds halves up — the two
agree everywhere except negative exact halves, which no result here hits.) -/
def toFixed {α : Type} [LinearOrderedField α] [FloorRing α] (n : ℕ) (x : α) : α :=
  ((round (x * (10 : α) ^ n) : ℤ) : α) / (10 : α) ^ n

/-- Arithmetic mean of a list, as computed by
`arr.reduce((a, b) => a + b, 0) / arr.length`. -/
def listAvg {α : Type} [LinearOrderedField α] (l : List α) : α :=
  l.sum / (l.length : α)

/-- Model of `hist.push(x); if (hist.length > n) hist.shift();` —
the bounded FIFO smoothing buffer used by every detector. -/
def pushHist {α : Type} (n : ℕ) (h : List α) (x : α) : List α :=
  let h2 := h ++ [x]
  if n < h2.length then h2.tail else h2

/-- Model of the `Landmark` record: normalized coordinates plus optional
depth and visibility. -/
structure Landmark where
  x : ℚ
  y : ℚ
  z : Option ℚ := none
  visibility : Option ℚ := none
  deriving DecidableEq, Repr

/-- `lmXY`: de-normalize a landmark to pixel coordinates. -/
def lmXY (lm : Landmark) (w h : ℚ) : ℚ × ℚ :=
  (lm.x * w, lm.y * h)

/- ----------------- Generic rep row ----------------- -/

/-- Model of the `RepRow` record type; fields the source leaves out of a
given rep are `none`. -/
structure RepRow (α : Type) where
  count : ℕ
  down_time : Option α := none
  up_time : Option α := none
  dip_duration_sec : Option α := none
  min_elbow_angle : Option α := none
  angle_change : Option α := none
  correct : Option Bool := none
  deriving DecidableEq, Repr

/- ----------------- Push-ups ----------------- -/

/-- The push-up / sit-up phase enum, `"up" | "down"`. -/
inductive UpDown | up | down
  deriving DecidableEq, Repr

/-- Model of `PushupState`. -/
structure PushupState (α : Type) where
  angleHistory : List α
  state : UpDown
  inDip : Bool
  dipStartTime : Option α
  currentDipMinAngle : α
  reps : List (RepRow α)
  fps : α
  deriving DecidableEq, Repr

/-- Model of `initPushupState`. -/
def initPushupState {α : Type} [LinearOrderedField α] (fps : α := 30) : PushupState α :=
  { angleHistory := [], state := .up, inDip := false, dipStartTime := none,
    currentDipMinAngle := 180, reps := [], fps := fps }

/-- The smoothed elbow angle the push-up detector computes on a frame whose
raw (pre-smoothing) average elbow angle is `elbowAngle`. -/
def pushupSm {α : Type} [LinearOrderedField α] (elbowAngle : α) (s : PushupState α) : α :=
  listAvg (pushHist 3 s.angleHistory elbowAngle)

/-- The trailing `if (state.inDip && elbowSm < state.currentDipMinAngle)`
update of `pushupFrameAnalysis` (source line 130). -/
def pushupMinUpd {α : Type} [LinearOrderedField α] (elbowSm : α) (s : PushupState α) :
    PushupState α :=
  if s.inDip ∧ elbowSm < s.currentDipMinAngle then { s with currentDipMinAngle := elbowSm }
  else s

/-- Lines 96–131 of `pushupFrameAnalysis`: the state-machine step run on the
raw average elbow angle once the geometry kernel has produced one. -/
def pushupStep {α : Type} [LinearOrderedField α] [FloorRing α]
    (elbowAngle t : α) (s : PushupState α) : PushupState α × Option (RepRow α) :=
  let hist := pushHist 3 s.angleHistory elbowAngle
  let elbowSm := listAvg hist
  let s := { s with angleHistory := hist }
  if s.state = .up ∧ elbowSm ≤ 75 then
    let s2 := { s with
      state := UpDown.down, inDip := true,
      dipStartTime := some t, currentDipMinAngle := elbowSm }
    (pushupMinUpd elbowSm s2, none)
  else if s.state = .down ∧ elbowSm ≥ 110 then
    let s := { s with state := .up }
    if s.inDip then
      let dipDuration := t - (s.dipStartTime.getD t)
      let isCorrect := s.currentDipMinAngle ≤ 75 ∧ dipDuration ≥ 1/5
      let rep : RepRow α :=
        { count := s.reps.length + 1,
          down_time := some (toFixed 3 (s.dipStartTime.getD 0)),
          up_time := some (toFixed 3 t),
          dip_duration_sec := some (toFixed 3 dipDuration),
          min_elbow_angle := some (toFixed 2 s.currentDipMinAngle),
          correct := some (if isCorrect then true else false) }
      let s2 := { s with
        reps := s.reps ++ [rep], inDip := false, dipStartTime := none,
        currentDipMinAngle := 180 }
      (s2, some rep)
    else (pushupMinUpd elbowSm s, none)
  else (pushupMinUpd elbowSm s, none)

/-- Feed a list of `(raw average elbow angle, timestamp)` frames through
`pushupStep`, collecting the emitted rep events in order. -/
def pushupRun {α : Type} [LinearOrderedField α] [FloorRing α] :
    List (α × α) → PushupState α → PushupState α × List (RepRow α)
  | [], s => (s, [])
  | f :: fs, s =>
    let r := pushupStep f.1 f.2 s
    let rest := pushupRun fs r.1
    (rest.1, r.2.toList ++ rest.2)

/-- The smoothed elbow angle seen by the detector at each successive frame
of a session. -/
def pushupSmTrace {α : Type} [LinearOrderedField α] [FloorRing α] :
    List (α × α) → PushupState α → List α
  | [], _ => []
  | f :: fs, s => pushupSm f.1 s :: pushupSmTrace fs (pushupStep f.1 f.2 s).1

/-- Model of `summarizePushups`'s return shape. -/
structure PushupSummary (α : Type) where
  count : ℕ
  goodReps : ℕ
  badReps : ℕ
  avgElbowAngle : α
  avgRepDurationSec : α
  deriving DecidableEq, Repr

/-- Model of `summarizePushups`. -/
def summarizePushups {α : Type} [LinearOrderedField α] [FloorRing α]
    (reps : List (RepRow α)) : PushupSummary α :=
  if reps = [] then ⟨0, 0, 0, 0, 0⟩
  else
    let goodReps := (reps.filter (fun r => r.correct = some true)).length
    let badReps := reps.length - goodReps
    let avgAngle := (reps.map (fun r => r.min_elbow_angle.getD 0)).sum / (reps.length : α)
    let avgDuration := (reps.map (fun r => r.dip_duration_sec.getD 0)).sum / (reps.length : α)
    ⟨reps.length, goodReps, badReps, toFixed 2 avgAngle, toFixed 2 avgDuration⟩

/- ----------------- Pull-ups ----------------- -/

/-- The pull-up phase enum, `"waiting" | "up"`. -/
inductive WaitUp | waiting | up
  deriving DecidableEq, Repr

/-- Model of `PullupState`. -/
structure PullupState (α : Type) where
  angleHistory : List α
  state : WaitUp
  inDip : Bool
  dipStartTime : Option α
  reps : List (RepRow α)
  initialHeadY : Option α
  fps : α
  deriving DecidableEq, Repr

/-- Model of `initPullupState`. -/
def initPullupState {α : Type} [LinearOrderedField α] (fps : α := 30) : PullupState α :=
  { angleHistory := [], state := .waiting, inDip := false, dipStartTime := none,
    reps := [], initialHeadY := none, fps := fps }

/-- Lines 169–202 of `pullupFrameAnalysis`: the state-machine step run once
both the elbow angle and the head height are available (and `initialHeadY`
has been captured). -/
def pullupStep {α : Type} [LinearOrderedField α] [FloorRing α]
    (elbowAngle headY t : α) (s : PullupState α) : PullupState α × Option (RepRow α) :=
  let hist := pushHist 3 s.angleHistory elbowAngle
  let smoothed := listAvg hist
  let s := { s with angleHistory := hist }
  if s.state = .waiting ∧ headY < s.initialHeadY.getD headY then
    let s2 := { s with
      state := WaitUp.up, inDip := true, dipStartTime := some t }
    (s2, none)
  else if s.state = .up ∧ smoothed > 160 ∧ headY ≥ s.initialHeadY.getD headY ∧ s.inDip then
    let dipDuration := t - (s.dipStartTime.getD t)
    if dipDuration ≥ 1/10 then
      let rep : RepRow α :=
        { count := s.reps.length + 1,
          up_time := some (toFixed 2 (s.dipStartTime.getD 0)),
          down_time := some (toFixed 2 t),
          dip_duration_sec := some (toFixed 2 dipDuration),
          min_elbow_angle := some (toFixed 2 smoothed) }
      let s2 := { s with
        reps := s.reps ++ [rep], inDip := false, dipStartTime := none,
        state := WaitUp.waiting }
      (s2, some rep)
    else (s, none)
  else (s, none)

/- ----------------- Sit-ups ----------------- -/

/-- Model of `SitupState`. -/
structure SitupState (α : Type) where
  angleHistory : List α
  state : UpDown
  lastExtremeAngle : Option α
  dipStartTime : Option α
  reps : List (RepRow α)
  fps : α
  deriving DecidableEq, Repr

/-- Model of `initSitupState`. -/
def initSitupState {α : Type} [LinearOrderedField α] (fps : α := 30) : SitupState α :=
  { angleHistory := [], state := .up, lastExtremeAngle := none, dipStartTime := none,
    reps := [], fps := fps }

/-- The smoothed angle the sit-up detector computes on a frame whose raw
average elbow angle is `elbowAngle` (5-sample window). -/
def situpSm {α : Type} [LinearOrderedField α] (elbowAngle : α) (s : SitupState α) : α :=
  listAvg (pushHist 5 s.angleHistory elbowAngle)

/-- Lines 234–260 of `situpFrameAnalysis`: the state-machine step run on the
raw average elbow angle.  After the transition branches the source
unconditionally stores the current smoothed value in `lastExtremeAngle`
(line 259) unless a rep was just returned; the enter-`down` branch also
stores it, so every exit leaves `lastExtremeAngle = sm`. -/
def situpStep {α : Type} [LinearOrderedField α] [FloorRing α]
    (elbowAngle t : α) (s : SitupState α) : SitupState α × Option (RepRow α) :=
  let hist := pushHist 5 s.angleHistory elbowAngle
  let sm := listAvg hist
  let s := { s with angleHistory := hist }
  let s := if s.lastExtremeAngle = none then { s with lastExtremeAngle := some sm } else s
  if s.state = .up ∧ s.lastExtremeAngle.getD 0 - sm ≥ 15 then
    let s2 := { s with
      state := UpDown.down, dipStartTime := some t, lastExtremeAngle := some sm }
    (s2, none)
  else if s.state = .down ∧ sm - s.lastExtremeAngle.getD 0 ≥ 15 then
    let rep : RepRow α :=
      { count := s.reps.length + 1,
        down_time := some (match s.dipStartTime with
          | some d => toFixed 3 d
          | none => 0),
        up_time := some (toFixed 3 t),
        angle_change := some (toFixed 2 (sm - s.lastExtremeAngle.getD 0)) }
    let s2 := { s with
      state := UpDown.up, reps := s.reps ++ [rep], dipStartTime := none,
      lastExtremeAngle := some sm }
    (s2, some rep)
  else ({ s with lastExtremeAngle := some sm }, none)

/- ----------------- Vertical jump ----------------- -/

/-- Model of `VerticalJumpRow`. -/
structure VerticalJumpRow where
  takeoff_time : ℚ
  landing_time : Option ℚ
  jump_height_px : ℚ
  air_time_s : ℚ
  deriving DecidableEq, Repr

/-- Model of `VerticalJumpState`. -/
structure VerticalJumpState where
  hipHistory : List ℚ
  baselineY : Option ℚ
  inAir : Bool
  peakY : Option ℚ
  jumpCount : ℕ
  jumpData : List VerticalJumpRow
  fps : ℚ
  deriving DecidableEq, Repr

/-- Model of `initVerticalJumpState`. -/
def initVerticalJumpState (fps : ℚ := 30) : VerticalJumpState :=
  { hipHistory := [], baselineY := none, inAir := false, peakY := none,
    jumpCount := 0, jumpData := [], fps := fps }

/-- The smoothed mid-hip height the jump detector computes on a frame whose
mid-hip pixel height is `midHipY` (5-sample window). -/
def vjSm (midHipY : ℚ) (s : VerticalJumpState) : ℚ :=
  listAvg (pushHist 5 s.hipHistory midHipY)

/-- Lines 300–324 of `verticalJumpFrameAnalysis`: the state-machine step run
on the mid-hip pixel height.  `baselineY` is non-null after line 304, so the
`getD 0` fallbacks are never taken from reachable states; the landing branch
reads the last element of `jumpData` unconditionally, which throws
(`.error ()`) if the ledger is empty. -/
def vjStep (midHipY t : ℚ) (s : VerticalJumpState) :
    Except Unit (VerticalJumpState × Option VerticalJumpRow) :=
  let hist := pushHist 5 s.hipHistory midHipY
  let hipSm := listAvg hist
  let s := { s with hipHistory := hist }
  let s := if s.baselineY = none then { s with baselineY := some hipSm } else s
  if ¬s.inAir ∧ hipSm < s.baselineY.getD 0 - 20 then
    let s2 := { s with
      inAir := true, peakY := some hipSm, jumpCount := s.jumpCount + 1,
      jumpData := s.jumpData ++ [⟨t, none, 0, 0⟩] }
    .ok (s2, none)
  else if s.inAir then
    let s := if hipSm < s.peakY.getD hipSm then { s with peakY := some hipSm } else s
    if hipSm ≥ s.baselineY.getD 0 - 5 then
      match s.jumpData.getLast? with
      | none => .error ()
      | some last =>
        let jumpHeightPx := s.baselineY.getD 0 - s.peakY.getD 0
        let updated := { last with
          landing_time := some t,
          jump_height_px := toFixed 2 jumpHeightPx,
          air_time_s := toFixed 3 (t - last.takeoff_time) }
        let s2 := { s with
          jumpData := s.jumpData.dropLast ++ [updated], inAir := false, peakY := none }
        .ok (s2, some updated)
    else .ok (s, none)
  else .ok (s, none)

/-- Model of `verticalJumpFrameAnalysis`.  The source reads
`landmarks[23]` / `landmarks[24]` with no guard and no `try`/`catch`, so a
non-empty landmark array lacking either hip throws a `TypeError`
(`.error ()` here). -/
def verticalJumpFrameAnalysis (landmarks : List Landmark) (w h t : ℚ)
    (s : VerticalJumpState) : Except Unit (VerticalJumpState × Option VerticalJumpRow) :=
  if landmarks.isEmpty then .ok (s, none) else
  match landmarks.get? 23, landmarks.get? 24 with
  | some lm23, some lm24 =>
    vjStep (((lmXY lm23 w h).2 + (lmXY lm24 w h).2) / 2) t s
  | _, _ => .error ()

/- ----------------- Shuttle run ----------------- -/

/-- Model of `ShuttleState`.  Directions and statuses are the source's
string literals. -/
structure ShuttleState where
  xHistory : List ℚ
  dirHistory : List String
  positions : List ℚ
  runCount : ℕ
  status : String
  direction : Option String
  startX : Option ℚ
  lastX : Option ℚ
  fps : ℚ
  deriving DecidableEq, Repr

/-- Model of `initShuttleState`. -/
def initShuttleState (fps : ℚ := 30) : ShuttleState :=
  { xHistory := [], dirHistory := [], positions := [], runCount := 0,
    status := "Waiting", direction := none, startX := none, lastX := none, fps := fps }

/-- The per-frame status record `{ runCount, status }` the shuttle analysis
returns. -/
structure ShuttleMetric where
  runCount : ℕ
  status : String
  deriving DecidableEq, Repr

/-- The average x-pixel position of landmarks 27, 28, 31, 32, with a missing
landmark's x defaulted to 0 (`landmarks[i]?.x ?? 0`). -/
def shuttleCurrentX (landmarks : List Landmark) (w : ℚ) : ℚ :=
  let keyx := [27, 28, 31, 32].map (fun i => (((landmarks.get? i).map Landmark.x).getD 0) * w)
  keyx.sum / (keyx.length : ℚ)

/-- The smoothed x position the shuttle detector computes on a frame
(5-sample window). -/
def shuttleSm (landmarks : List Landmark) (w : ℚ) (s : ShuttleState) : ℚ :=
  listAvg (pushHist 5 s.xHistory (shuttleCurrentX landmarks w))

/-- The direction history after this frame's delta is recorded and the
buffer trimmed to 3 (lines 363–367). -/
def shuttleDirs (landmarks : List Landmark) (w : ℚ) (s : ShuttleState) : List String :=
  match s.lastX with
  | none => s.dirHistory
  | some lx =>
    let delta := shuttleSm landmarks w s - lx
    let dirs :=
      if delta > 5 then s.dirHistory ++ ["forward"]
      else if delta < -5 then s.dirHistory ++ ["backward"]
      else s.dirHistory
    if 3 < dirs.length then dirs.tail else dirs

/-- The direction confirmed this frame, if any: the head of the direction
history when it has length 3 and all entries agree (line 369). -/
def shuttleConfirmed (dirs : List String) : Option String :=
  if dirs.length = 3 ∧ dirs.all (fun d => d = dirs.headD "") then some (dirs.headD "")
  else none

/-- Model of `shuttleFrameAnalysis`. -/
def shuttleFrameAnalysis (landmarks : List Landmark) (w h t : ℚ) (s : ShuttleState) :
    ShuttleState × Option ShuttleMetric :=
  if landmarks.isEmpty then (s, none) else
  let currentX := shuttleCurrentX landmarks w
  let hist := pushHist 5 s.xHistory currentX
  let smoothedX := listAvg hist
  let dirs := shuttleDirs landmarks w s
  let s1 :=
    match s.lastX with
    | none => { s with xHistory := hist }
    | some _ =>
      let s := { s with xHistory := hist, dirHistory := dirs }
      match shuttleConfirmed dirs with
      | none => s
      | some confirmed =>
        if s.startX = none then
          { s with
            startX := some smoothedX, direction := some confirmed,
            status := if confirmed = "forward" then "Running Towards" else "Returning" }
        else if s.direction ≠ some confirmed then
          if confirmed = "backward" then
            { s with
              direction := some confirmed, runCount := s.runCount + 1,
              status := "Returning" }
          else { s with direction := some confirmed, status := "Running Towards" }
        else s
  let s2 := { s1 with lastX := some smoothedX, positions := s1.positions ++ [smoothedX] }
  (s2, some ⟨s2.runCount, s2.status⟩)

/- ----------------- Sit & reach ----------------- -/

/-- One entry of the dense reach series. -/
structure ReachRow where
  time_s : ℚ
  reach_px : ℚ
  reach_m : ℚ
  deriving DecidableEq, Repr

/-- Model of `SitReachState`. -/
structure SitReachState where
  reachHistory : List ℚ
  maxReachPx : ℚ
  timeOfMax : ℚ
  reachData : List ReachRow
  fps : ℚ
  deriving DecidableEq, Repr

/-- Model of `initSitReachState`. -/
def initSitReachState (fps : ℚ := 30) : SitReachState :=
  { reachHistory := [], maxReachPx := 0, timeOfMax := 0, reachData := [], fps := fps }

/-- The smoothed reach the detector computes on a frame whose raw reach is
`reachPx` (5-sample window). -/
def sitReachSm (reachPx : ℚ) (s : SitReachState) : ℚ :=
  listAvg (pushHist 5 s.reachHistory reachPx)

/-- Lines 420–430 of `sitReachFrameAnalysis`: the running-maximum update and
series append, run on the raw reach value. -/
def sitReachStep (reachPx t : ℚ) (s : SitReachState) : SitReachState :=
  let hist := pushHist 5 s.reachHistory reachPx
  let sm := listAvg hist
  let s := { s with reachHistory := hist }
  let s := if sm > s.maxReachPx then { s with maxReachPx := sm, timeOfMax := t } else s
  { s with reachData := s.reachData ++ [⟨toFixed 3 t, toFixed 2 sm, toFixed 3 (sm * (1/100))⟩] }

/-- Model of `sitReachFrameAnalysis` (the source always returns `null` as
its frame metric, so only the state is carried).  Landmarks 31, 32, 15, 16
are read with no guard and no `try`/`catch`, so a non-empty landmark array
lacking any of them throws a `TypeError` (`.error ()` here). -/
def sitReachFrameAnalysis (landmarks : List Landmark) (w h t : ℚ) (s : SitReachState) :
    Except Unit SitReachState :=
  if landmarks.isEmpty then .ok s else
  match landmarks.get? 31, landmarks.get? 32, landmarks.get? 15, landmarks.get? 16 with
  | some lm31, some lm32, some lm15, some lm16 =>
    let footX := ((lmXY lm31 w h).1 + (lmXY lm32 w h).1) / 2
    let handX := ((lmXY lm15 w h).1 + (lmXY lm16 w h).1) / 2
    .ok (sitReachStep (handX - footX) t s)
  | _, _, _, _ => .error ()

/-- Feed a list of `(raw reach, timestamp)` samples through `sitReachStep`. -/
def sitReachRun : List (ℚ × ℚ) → SitReachState → SitReachState
  | [], s => s
  | f :: fs, s => sitReachRun fs (sitReachStep f.1 f.2 s)

/-- The smoothed reach seen by the detector at each successive sample of a
session. -/
def sitReachSmTrace : List (ℚ × ℚ) → SitReachState → List ℚ
  | [], _ => []
  | f :: fs, s => sitReachSm f.1 s :: sitReachSmTrace fs (sitReachStep f.1 f.2 s)

/- ----------------- Geometry kernel ----------------- -/

/-- Model of the private `angle` helper: interior angle at `b` in degrees,
via the clamped dot-product / arc-cosine formula with the `1e-9`
denominator guard (`Math.hypot` is `sqrt (x^2 + y^2)`). -/
noncomputable def angle (a b c : ℚ × ℚ) : ℝ :=
  let ba := (a.1 - b.1, a.2 - b.2)
  let bc := (c.1 - b.1, c.2 - b.2)
  let dot : ℚ := ba.1 * bc.1 + ba.2 * bc.2
  let mag1 : ℝ := Real.sqrt ((ba.1 : ℝ) ^ 2 + (ba.2 : ℝ) ^ 2)
  let mag2 : ℝ := Real.sqrt ((bc.1 : ℝ) ^ 2 + (bc.2 : ℝ) ^ 2)
  let cosang : ℝ := max (-1) (min 1 ((dot : ℝ) / (mag1 * mag2 + 1 / 1000000000)))
  Real.arccos cosang * 180 / Real.pi

/-- Model of `averageAngleBetween`.  The `try`/`catch` in the source catches
exactly the `TypeError` raised by `lmXY` when one of the three indexed
landmarks is `undefined`, returning `null`; `angle` itself never throws. -/
noncomputable def averageAngleBetween (lm : List Landmark) (w h : ℚ)
    (leftIdx midIdx rightIdx : ℕ) : Option ℝ :=
  match lm.get? leftIdx, lm.get? midIdx, lm.get? rightIdx with
  | some a, some b, some c => some (angle (lmXY a w h) (lmXY b w h) (lmXY c w h))
  | _, _, _ => none

/- ----------------- Full frame analyses (rep family) ----------------- -/

/-- Model of `pushupFrameAnalysis` (lines 82–132): geometry kernel feeding
the state-machine step.  A missing elbow-channel landmark yields a `null`
elbow angle and the frame is skipped with the state untouched. -/
noncomputable def pushupFrameAnalysis (landmarks : List Landmark) (w h t : ℚ)
    (s : PushupState ℝ) : PushupState ℝ × Option (RepRow ℝ) :=
  if landmarks.isEmpty then (s, none) else
  match averageAngleBetween landmarks w h 11 13 15,
        averageAngleBetween landmarks w h 12 14 16 with
  | some angL, some angR => pushupStep ((angL + angR) / 2) (t : ℝ) s
  | _, _ => (s, none)

/-- Model of `situpFrameAnalysis` (lines 221–261). -/
noncomputable def situpFrameAnalysis (landmarks : List Landmark) (w h t : ℚ)
    (s : SitupState ℝ) : SitupState ℝ × Option (RepRow ℝ) :=
  if landmarks.isEmpty then (s, none) else
  match averageAngleBetween landmarks w h 11 13 15,
        averageAngleBetween landmarks w h 12 14 16 with
  | some angL, some angR => situpStep ((angL + angR) / 2) (t : ℝ) s
  | _, _ => (s, none)

/-- Model of `pullupFrameAnalysis` (lines 151–203).  `initialHeadY` is
captured (line 166) before the missing-angle bail-out, so a skipped frame
may still record the baseline; the smoothing buffer is only pushed inside
`pullupStep`. -/
noncomputable def pullupFrameAnalysis (landmarks : List Landmark) (w h t : ℚ)
    (s : PullupState ℝ) : PullupState ℝ × Option (RepRow ℝ) :=
  if landmarks.isEmpty then (s, none) else
  let headY : Option ℝ := (landmarks.get? 0).map (fun n => ((n.y * h : ℚ) : ℝ))
  let elbowAngle : Option ℝ :=
    match averageAngleBetween landmarks w h 11 13 15,
          averageAngleBetween landmarks w h 12 14 16 with
    | some x, some y => some ((x + y) / 2)
    | _, _ => none
  let s := if s.initialHeadY = none ∧ headY ≠ none then { s with initialHeadY := headY } else s
  match elbowAngle, headY with
  | some ea, some hy => pullupStep ea hy (t : ℝ) s
  | _, _ => (s, none)

/- ----------------- Summaries ----------------- -/

/-- Model of `summarizePullups`'s return shape. -/
structure PullupSummary (α : Type) where
  count : ℕ
  avgDipDuration : α
  deriving DecidableEq, Repr

/-- Model of `summarizePullups`. -/
def summarizePullups {α : Type} [LinearOrderedField α] [FloorRing α]
    (reps : List (RepRow α)) : PullupSummary α :=
  if reps = [] then ⟨0, 0⟩
  else
    ⟨reps.length,
     toFixed 2 ((reps.map (fun r => r.dip_duration_sec.getD 0)).sum / (reps.length : α))⟩

/-- Model of `summarizeSitups`'s return shape. -/
structure SitupSummary (α : Type) where
  count : ℕ
  avgAngleChange : α
  deriving DecidableEq, Repr

/-- Model of `summarizeSitups`. -/
def summarizeSitups {α : Type} [LinearOrderedField α] [FloorRing α]
    (reps : List (RepRow α)) : SitupSummary α :=
  if reps = [] then ⟨0, 0⟩
  else
    ⟨reps.length,
     toFixed 2 ((reps.map (fun r => r.angle_change.getD 0)).sum / (reps.length : α))⟩

/-- Model of `summarizeVerticalJump`'s return shape. -/
structure VerticalJumpSummary where
  count : ℕ
  maxHeightCm : ℚ
  avgAirTimeSec : ℚ
  deriving DecidableEq, Repr

/-- Model of `summarizeVerticalJump`.  Every entry of `jumpData` is counted,
whether or not its `landing_time` was ever populated. -/
def summarizeVerticalJump (jumps : List VerticalJumpRow) : VerticalJumpSummary :=
  if jumps = [] then ⟨0, 0, 0⟩
  else
    let maxHeight := ((jumps.map (fun j => j.jump_height_px)).max?).getD 0
    let avgAirTime := (jumps.map (fun j => j.air_time_s)).sum / (jumps.length : ℚ)
    ⟨jumps.length, toFixed 2 (maxHeight * (264 / 10000)), toFixed 2 avgAirTime⟩

/-- Model of `summarizeShuttle`'s return shape. -/
structure ShuttleSummary where
  runs : ℕ
  distanceM : ℚ
  deriving DecidableEq, Repr

/-- Model of `summarizeShuttle`. -/
def summarizeShuttle (s : ShuttleState) : ShuttleSummary :=
  if s.positions = [] then ⟨0, 0⟩
  else
    let minX := (s.positions.min?).getD 0
    let maxX := (s.positions.max?).getD 0
    ⟨s.runCount, toFixed 2 ((maxX - minX) * (1 / 100))⟩

/-- Model of `summarizeSitReach`'s return shape. -/
structure SitReachSummary where
  maxReachM : ℚ
  timeOfMax : ℚ
  deriving DecidableEq, Repr

/-- Model of `summarizeSitReach` (no empty-session guard is needed: the
state's running extrema start at 0). -/
def summarizeSitReach (s : SitReachState) : SitReachSummary :=
  ⟨toFixed 2 (s.maxReachPx * (1 / 100)), toFixed 2 s.timeOfMax⟩

/-- Run a vertical-jump session: feed a list of `(landmarks, timestamp)`
frames through `verticalJumpFrameAnalysis`, propagating a thrown
`TypeError`. -/
def vjSessionRun : List (List Landmark × ℚ) → ℚ → ℚ → VerticalJumpState →
    Except Unit VerticalJumpState
  | [], _, _, s => .ok s
  | (lm, t) :: fs, w, h, s =>
    match verticalJumpFrameAnalysis lm w h t s with
    | .error e => .error e
    | .ok r => vjSessionRun fs w h r.1

/-- Test fixture: a 25-landmark frame whose hip landmarks (23, 24) sit at
normalized height `y`. -/
def hipFrame (y : ℚ) : List Landmark :=
  List.replicate 25 { x := 0, y := y }

end Metrics

open Metrics

/-- C9: for every activity, summarizing a zero-frame session (the initial
ActivityState, with empty ledger / empty position history) returns the
all-zero SummaryRecord — push-up `{0,0,0,0,0}`, pull-up `{0,0}`, sit-up
`{0,0}`, vertical jump `{0,0,0}`, shuttle `{runs:0, distanceM:0}`, and
sit-and-reach `{maxReachM:0, timeOfMax:0}` — and does not throw. -/
theorem C9_empty_session_all_zero_summary :
    summarizePushups (initPushupState 30 : PushupState ℚ).reps = ⟨0, 0, 0, 0, 0⟩ ∧
    summarizePullups (initPullupState 30 : PullupState ℚ).reps = ⟨0, 0⟩ ∧
    summarizeSitups (initSitupState 30 : SitupState ℚ).reps = ⟨0, 0⟩ ∧
    summarizeVerticalJump (initVerticalJumpState 30).jumpData = ⟨0, 0, 0⟩ ∧
    summarizeShuttle (initShuttleState 30) = ⟨0, 0⟩ ∧
    summarizeSitReach (initSitReachState 30) = ⟨0, 0⟩ := by
  refine ⟨?_, ?_, ?_, ?_, ?_, ?_⟩ <;>
    norm_num [summarizePushups, summarizePullups, summarizeSitups,
      summarizeVerticalJump, summarizeShuttle, summarizeSitReach,
      initPushupState, initPullupState, initSitupState, initVerticalJumpState,
      initShuttleState, initSitReachState, toFixed, round_eq]

/-- C2 fails on the code: the four-frame push-up session with raw average
elbow angles 170°, 60°, 60°, 170° at timestamps 0, 0.3, 0.5, 0.8 emits zero
RepEvents (not one): the 3-frame smoothing mean never leaves the 75–110
hysteresis band. -/
theorem C2_counterexample_no_rep_emitted :
    (pushupRun [((170 : ℚ), 0), (60, 3/10), (60, 1/2), (170, 4/5)]
      (initPushupState 30)).2.length = 0 := by
  norm_num [pushupRun, pushupStep, pushupMinUpd, initPushupState,
    listAvg, pushHist, toFixed, round_eq]

/-- C2 (amended): the four-frame push-up session with raw average elbow
angles 170°, 60°, 60°, 170° at timestamps 0, 0.3, 0.5, 0.8 yields zero
RepEvents, leaves the rep ledger empty, and summarizes to count 0, good
reps 0, bad reps 0: the 3-frame smoothing mean stays at ≈96.7°, strictly
inside the 75–110 hysteresis band, so no phase transition ever fires. -/
theorem C2_smoothed_scenario_zero_reps :
    (pushupRun [((170 : ℚ), 0), (60, 3/10), (60, 1/2), (170, 4/5)]
      (initPushupState 30)).2 = [] ∧
    (pushupRun [((170 : ℚ), 0), (60, 3/10), (60, 1/2), (170, 4/5)]
      (initPushupState 30)).1.reps = [] ∧
    summarizePushups (pushupRun [((170 : ℚ), 0), (60, 3/10), (60, 1/2), (170, 4/5)]
      (initPushupState 30)).1.reps = ⟨0, 0, 0, 0, 0⟩ := by
  refine ⟨?_, ?_, ?_⟩ <;>
    norm_num [pushupRun, pushupStep, pushupMinUpd, initPushupState,
      listAvg, pushHist, toFixed, round_eq, summarizePushups]

/-- C3 fails on the code: a down→up closure whose dip lasted 0.1 s (< 0.2 s)
IS emitted as a RepEvent — with `correct = false` even though its minimum
dip angle 75° meets the depth requirement, so correctness does not depend
on depth alone. -/
theorem C3_counterexample_short_dip_emitted :
    (pushupRun [((75 : ℚ), 0), (145, 1/10)] (initPushupState 30)).2 =
      [{ count := 1, down_time := some 0, up_time := some (1/10),
         dip_duration_sec := some (1/10), min_elbow_angle := some 75,
         correct := some false }] := by
  norm_num [pushupRun, pushupStep, pushupMinUpd, initPushupState,
    listAvg, pushHist, toFixed, round_eq]

/-- C3 (amended): in the push-up detector a down→up closure is emitted as a
RepEvent regardless of dip duration — emission from the `down` phase depends
only on the smoothed angle reaching 110° with a dip in progress — and the
correctness flag of an emitted RepEvent requires BOTH depth (minimum
smoothed dip angle ≤ 75°) AND dip duration ≥ 0.2 s; a sub-0.2 s dip is
therefore recorded with `correct = false`, not dropped. -/
theorem C3_emission_and_correctness (a t : ℚ) (s : PushupState ℚ) :
    (s.state = .down →
      (((pushupStep a t s).2 ≠ none) ↔ pushupSm a s ≥ 110 ∧ s.inDip = true)) ∧
    (∀ r, (pushupStep a t s).2 = some r →
      (r.correct = some true ↔
        s.currentDipMinAngle ≤ 75 ∧ t - s.dipStartTime.getD t ≥ 1/5)) := by
  have hsm : listAvg (pushHist 3 s.angleHistory a) = pushupSm a s := rfl
  constructor
  · intro hdown
    simp only [pushupStep, hsm, hdown]
    split_ifs with h1 h2 h3 <;> simp_all [pushupMinUpd]
  · intro r hr
    simp only [pushupStep, hsm] at hr
    split_ifs at hr <;> simp_all [pushupMinUpd] <;> rw [← hr] <;>
      simp_all [not_and]

/-- C3 witness: from a concrete `down` state with a 0.1 s-old dip of minimum
angle 75°, the frame closing the dip emits a RepEvent with
`correct = false`. -/
theorem C3_emission_witness :
    (pushupStep (145 : ℚ) (1/10)
      (⟨[75], .down, true, some 0, 75, [], 30⟩ : PushupState ℚ)).2 ≠ none ∧
    (pushupStep (145 : ℚ) (1/10)
      (⟨[75], .down, true, some 0, 75, [], 30⟩ : PushupState ℚ)).2 =
      some ⟨1, some 0, some (1/10), some (1/10), some 75, none, some false⟩ := by
  have h := C3_emission_and_correctness 145 (1/10)
    (⟨[75], .down, true, some 0, 75, [], 30⟩ : PushupState ℚ)
  refine ⟨(h.1 rfl).mpr ⟨by norm_num [pushupSm, listAvg, pushHist], rfl⟩, ?_⟩
  norm_num [pushupStep, pushupMinUpd, listAvg, pushHist, toFixed, round_eq]

/-- Helper: a frame whose smoothed elbow angle stays strictly above the 75°
down-threshold cannot move the push-up machine out of the `up` phase, change
its ledger, or emit an event. -/
theorem pushupStep_stays_up {a t : ℚ} {s : PushupState ℚ} (hs : s.state = .up)
    (h75 : ¬pushupSm a s ≤ 75) :
    (pushupStep a t s).1.state = .up ∧ (pushupStep a t s).1.reps = s.reps ∧
      (pushupStep a t s).2 = none := by
  have hsm : listAvg (pushHist 3 s.angleHistory a) = pushupSm a s := rfl
  simp only [pushupStep, hsm]
  split_ifs with h1 h2 <;> simp_all [pushupMinUpd, apply_ite]

/-- Helper: from any `up` state, a session whose smoothed elbow angle stays
strictly inside the 75–110 band emits nothing and leaves the ledger as it
was. -/
theorem pushupRun_stays_up (frames : List (ℚ × ℚ)) :
    ∀ s : PushupState ℚ, s.state = .up →
      (∀ x ∈ pushupSmTrace frames s, 75 < x ∧ x < 110) →
      (pushupRun frames s).1.state = .up ∧ (pushupRun frames s).1.reps = s.reps ∧
        (pushupRun frames s).2 = [] := by
  induction frames with
  | nil => intro s hs _; simp [pushupRun, hs]
  | cons f fs ih =>
    intro s hs hband
    have hhead : 75 < pushupSm f.1 s ∧ pushupSm f.1 s < 110 :=
      hband _ (by simp [pushupSmTrace])
    have hstep := @pushupStep_stays_up f.1 f.2 s hs (not_le.mpr hhead.1)
    have htail : ∀ x ∈ pushupSmTrace fs (pushupStep f.1 f.2 s).1, 75 < x ∧ x < 110 := by
      intro x hx
      exact hband x (by simp [pushupSmTrace, hx])
    have ihr := ih (pushupStep f.1 f.2 s).1 hstep.1 htail
    refine ⟨ihr.1, ?_, ?_⟩
    · rw [show (pushupRun (f :: fs) s).1 = (pushupRun fs (pushupStep f.1 f.2 s).1).1 from rfl]
      rw [ihr.2.1, hstep.2.1]
    · show (pushupStep f.1 f.2 s).2.toList ++ (pushupRun fs (pushupStep f.1 f.2 s).1).2 = []
      rw [hstep.2.2, ihr.2.2]
      rfl

/-- C8: starting from the initial push-up state (`up` phase), every frame
sequence whose smoothed elbow angle always remains strictly inside the
hysteresis band (above 75° and below 110°) produces zero RepEvents and
leaves the rep ledger empty, regardless of the number of oscillations. -/
theorem C8_hysteresis_band_no_reps (frames : List (ℚ × ℚ))
    (hband : ∀ x ∈ pushupSmTrace frames (initPushupState 30 : PushupState ℚ),
      75 < x ∧ x < 110) :
    (pushupRun frames (initPushupState 30 : PushupState ℚ)).2 = [] ∧
    (pushupRun frames (initPushupState 30 : PushupState ℚ)).1.reps = [] := by
  have h := pushupRun_stays_up frames (initPushupState 30) rfl hband
  exact ⟨h.2.2, by simpa [initPushupState] using h.2.1⟩

/-- C8 witness: the concrete oscillation 90°, 100°, 90°, 100° has all its
smoothed values inside the band and yields zero RepEvents. -/
theorem C8_hysteresis_witness :
    pushupSmTrace [((90 : ℚ), 0), (100, 1), (90, 2), (100, 3)]
      (initPushupState 30 : PushupState ℚ) = [90, 95, 280/3, 290/3] ∧
    (pushupRun [((90 : ℚ), 0), (100, 1), (90, 2), (100, 3)]
      (initPushupState 30 : PushupState ℚ)).2 = [] := by
  have htr : pushupSmTrace [((90 : ℚ), 0), (100, 1), (90, 2), (100, 3)]
      (initPushupState 30 : PushupState ℚ) = [90, 95, 280/3, 290/3] := by
    norm_num [pushupSmTrace, pushupSm, pushupStep, pushupMinUpd, initPushupState,
      listAvg, pushHist, toFixed, round_eq]
  refine ⟨htr, (C8_hysteresis_band_no_reps _ ?_).1⟩
  rw [htr]
  intro x hx
  simp only [List.mem_cons, List.not_mem_nil, or_false] at hx
  rcases hx with h | h | h | h <;> subst h <;> norm_num

/-- C5: with a recorded extreme angle `e`, the sit-up detector enters the
`down` phase exactly when the smoothed angle has dropped at least 15° below
`e` (emitting nothing), enters the `up` phase — closing a rep, with no
duration gate — exactly when the smoothed angle has risen at least 15° above
`e`, and every such down→up closure appends to the ledger a RepEvent whose
`angle_change` field carries the (rounded) magnitude of that angle swing. -/
theorem C5_situp_threshold_transitions (a t : ℚ) (s : SitupState ℚ) (e : ℚ)
    (he : s.lastExtremeAngle = some e) :
    (s.state = .up →
      (((situpStep a t s).1.state = .down) ↔ e - situpSm a s ≥ 15) ∧
      (situpStep a t s).2 = none) ∧
    (s.state = .down →
      (((situpStep a t s).1.state = .up) ↔ situpSm a s - e ≥ 15) ∧
      (((situpStep a t s).2 ≠ none) ↔ situpSm a s - e ≥ 15) ∧
      (∀ r, (situpStep a t s).2 = some r →
        (situpStep a t s).1.reps = s.reps ++ [r] ∧
        r.angle_change = some (toFixed 2 (situpSm a s - e)))) := by
  have hsm : listAvg (pushHist 5 s.angleHistory a) = situpSm a s := rfl
  refine ⟨fun hup => ?_, fun hdown => ⟨?_, ?_, fun r hr => ?_⟩⟩
  · simp only [situpStep, hsm]
    split_ifs with h0 h1 h2 <;> simp_all
  · simp only [situpStep, hsm]
    split_ifs with h0 h1 h2 <;> simp_all
  · simp only [situpStep, hsm]
    split_ifs with h0 h1 h2 <;> simp_all
  · simp only [situpStep, hsm] at hr ⊢
    split_ifs at hr ⊢ with h0 h1 h2 <;> simp_all <;> simp [← hr]

/-- C5 witness: from an `up` state with extreme 100° a smoothed drop to 80°
enters `down`; from a `down` state with extreme 50° a smoothed rise to 70°
emits a rep. -/
theorem C5_situp_witness :
    (situpStep (80 : ℚ) 0 (⟨[], .up, some 100, none, [], 30⟩ : SitupState ℚ)).1.state
      = .down ∧
    (situpStep (70 : ℚ) 1 (⟨[], .down, some 50, some 0, [], 30⟩ : SitupState ℚ)).2
      ≠ none := by
  constructor
  · exact ((C5_situp_threshold_transitions 80 0 _ 100 rfl).1 rfl).1.mpr
      (by norm_num [situpSm, listAvg, pushHist])
  · exact (((C5_situp_threshold_transitions 70 1 _ 50 rfl).2 rfl).2.1).mpr
      (by norm_num [situpSm, listAvg, pushHist])

/-- Helper: `toFixed` of zero is zero. -/
theorem toFixed_zero {α : Type} [LinearOrderedField α] [FloorRing α] (n : ℕ) :
    toFixed (α := α) n 0 = 0 := by
  simp [toFixed]

/-- Helper: one sit-reach step keeps the running maximum non-negative and
never decreases it; a negatively-smoothed frame on a zero maximum leaves
both extrema fields untouched. -/
theorem sitReachStep_inv (reach t : ℚ) (s : SitReachState) :
    (0 ≤ s.maxReachPx → 0 ≤ (sitReachStep reach t s).maxReachPx) ∧
    (0 ≤ s.maxReachPx → sitReachSm reach s < 0 →
      (sitReachStep reach t s).maxReachPx = s.maxReachPx ∧
      (sitReachStep reach t s).timeOfMax = s.timeOfMax) := by
  have hsm : listAvg (pushHist 5 s.reachHistory reach) = sitReachSm reach s := rfl
  simp only [sitReachStep, hsm]
  split_ifs with h <;> refine ⟨fun h0 => ?_, fun h0 h1 => ?_⟩ <;> simp_all <;> linarith

/-- Helper: session-level invariant for the sit-reach tracker. -/
theorem sitReachRun_inv (samples : List (ℚ × ℚ)) :
    ∀ s : SitReachState, 0 ≤ s.maxReachPx →
      0 ≤ (sitReachRun samples s).maxReachPx ∧
      ((∀ x ∈ sitReachSmTrace samples s, x < 0) →
        (sitReachRun samples s).maxReachPx = s.maxReachPx ∧
        (sitReachRun samples s).timeOfMax = s.timeOfMax) := by
  induction samples with
  | nil => intro s h0; exact ⟨h0, fun _ => ⟨rfl, rfl⟩⟩
  | cons f fs ih =>
    intro s h0
    have hstep := sitReachStep_inv f.1 f.2 s
    have ihr := ih (sitReachStep f.1 f.2 s) (hstep.1 h0)
    refine ⟨ihr.1, fun hneg => ?_⟩
    have hhead : sitReachSm f.1 s < 0 := hneg _ (by simp [sitReachSmTrace])
    have htail : ∀ x ∈ sitReachSmTrace fs (sitReachStep f.1 f.2 s), x < 0 := by
      intro x hx
      exact hneg x (by simp [sitReachSmTrace, hx])
    have h2 := ihr.2 htail
    have h3 := hstep.2 h0 hhead
    exact ⟨by rw [show sitReachRun (f :: fs) s = sitReachRun fs (sitReachStep f.1 f.2 s)
        from rfl, h2.1, h3.1],
      by rw [show sitReachRun (f :: fs) s = sitReachRun fs (sitReachStep f.1 f.2 s)
        from rfl, h2.2, h3.2]⟩

/-- C10: throughout a sit-and-reach session started from the initial state,
the tracked maximum reach is never negative; a session in which every
smoothed reach is negative reports `maxReachPx = 0` with `timeOfMax = 0`,
and its summary is `{maxReachM: 0, timeOfMax: 0}` rather than the (negative)
largest reach actually observed. -/
theorem C10_max_reach_never_negative (samples : List (ℚ × ℚ)) :
    0 ≤ (sitReachRun samples (initSitReachState 30)).maxReachPx ∧
    ((∀ x ∈ sitReachSmTrace samples (initSitReachState 30), x < 0) →
      (sitReachRun samples (initSitReachState 30)).maxReachPx = 0 ∧
      (sitReachRun samples (initSitReachState 30)).timeOfMax = 0 ∧
      summarizeSitReach (sitReachRun samples (initSitReachState 30)) = ⟨0, 0⟩) := by
  have h := sitReachRun_inv samples (initSitReachState 30) (by norm_num [initSitReachState])
  refine ⟨h.1, fun hneg => ?_⟩
  have h2 := h.2 hneg
  have hmax : (sitReachRun samples (initSitReachState 30)).maxReachPx = 0 := by
    rw [h2.1]; rfl
  have htom : (sitReachRun samples (initSitReachState 30)).timeOfMax = 0 := by
    rw [h2.2]; rfl
  refine ⟨hmax, htom, ?_⟩
  simp [summarizeSitReach, hmax, htom, toFixed_zero]

/-- C10 witness: the two-sample all-negative session −5 px, −3 px has
smoothed trace −5, −4 and reports a zero maximum with zero timestamp. -/
theorem C10_negative_session_witness :
    sitReachSmTrace [((-5 : ℚ), 1), (-3, 2)] (initSitReachState 30) = [-5, -4] ∧
    (sitReachRun [((-5 : ℚ), 1), (-3, 2)] (initSitReachState 30)).maxReachPx = 0 ∧
    summarizeSitReach (sitReachRun [((-5 : ℚ), 1), (-3, 2)] (initSitReachState 30)) =
      ⟨0, 0⟩ := by
  have htr : sitReachSmTrace [((-5 : ℚ), 1), (-3, 2)] (initSitReachState 30) = [-5, -4] := by
    norm_num [sitReachSmTrace, sitReachSm, sitReachStep, initSitReachState,
      listAvg, pushHist, toFixed, round_eq]
  have hneg : ∀ x ∈ sitReachSmTrace [((-5 : ℚ), 1), (-3, 2)] (initSitReachState 30),
      x < 0 := by
    rw [htr]
    intro x hx
    simp only [List.mem_cons, List.not_mem_nil, or_false] at hx
    rcases hx with h | h <;> subst h <;> norm_num
  have h := (C10_max_reach_never_negative [((-5 : ℚ), 1), (-3, 2)]).2 hneg
  exact ⟨htr, h.1, h.2.2⟩

/-- C7: on every shuttle frame, `runCount` is non-decreasing, and it
increments (by exactly one) precisely when a newly confirmed direction —
confirmed only when the last 3 recorded qualitative deltas are unanimous —
differs from the previously confirmed direction and is "backward", on a
frame past the first confirmation; the first confirmation of the session
only establishes the baseline heading and status, without incrementing
`runCount`. -/
theorem C7_shuttle_run_count_invariant (lm : List Landmark) (w h t : ℚ)
    (s : ShuttleState) :
    s.runCount ≤ (shuttleFrameAnalysis lm w h t s).1.runCount ∧
    ((shuttleFrameAnalysis lm w h t s).1.runCount = s.runCount + 1 ↔
      (¬lm.isEmpty ∧ s.lastX ≠ none ∧ s.startX ≠ none ∧
        shuttleConfirmed (shuttleDirs lm w s) = some "backward" ∧
        s.direction ≠ some "backward")) ∧
    ((shuttleFrameAnalysis lm w h t s).1.runCount = s.runCount ∨
      (shuttleFrameAnalysis lm w h t s).1.runCount = s.runCount + 1) ∧
    (¬lm.isEmpty → s.lastX ≠ none → s.startX = none →
      ∀ c, shuttleConfirmed (shuttleDirs lm w s) = some c →
        (shuttleFrameAnalysis lm w h t s).1.runCount = s.runCount ∧
        (shuttleFrameAnalysis lm w h t s).1.direction = some c ∧
        (shuttleFrameAnalysis lm w h t s).1.status =
          (if c = "forward" then "Running Towards" else "Returning")) := by
  by_cases he : lm.isEmpty
  · simp [shuttleFrameAnalysis, he]
  · cases hlx : s.lastX with
    | none => simp [shuttleFrameAnalysis, he, hlx]
    | some lx =>
      cases hc : shuttleConfirmed (shuttleDirs lm w s) with
      | none => simp [shuttleFrameAnalysis, he, hlx, hc]
      | some c =>
        by_cases hsx : s.startX = none
        · simp [shuttleFrameAnalysis, he, hlx, hc, hsx]
        · by_cases hd : s.direction = some c
          · simp [shuttleFrameAnalysis, he, hlx, hc, hsx, hd]
          · by_cases hb : c = "backward"
            · subst hb
              simp [shuttleFrameAnalysis, he, hlx, hc, hsx, hd]
            · simp [shuttleFrameAnalysis, he, hlx, hc, hsx, hd, hb, Ne.symm hb]

/-- C7 witness: a concrete frame on which the 3-delta history unanimously
confirms "backward" against a previously confirmed "forward" heading
increments `runCount` from 0 to 1. -/
theorem C7_shuttle_witness :
    (shuttleFrameAnalysis [({ x := 0, y := 0 } : Landmark)] 1 1 5
      (⟨[], ["backward", "backward"], [], 0, "Running Towards", some "forward",
        some 0, some 200, 30⟩ : ShuttleState)).1.runCount = 1 ∧
    (0 : ℕ) ≤ (shuttleFrameAnalysis [({ x := 0, y := 0 } : Landmark)] 1 1 5
      (⟨[], ["backward", "backward"], [], 0, "Running Towards", some "forward",
        some 0, some 200, 30⟩ : ShuttleState)).1.runCount := by
  have h := C7_shuttle_run_count_invariant [({ x := 0, y := 0 } : Landmark)] 1 1 5
    (⟨[], ["backward", "backward"], [], 0, "Running Towards", some "forward",
      some 0, some 200, 30⟩ : ShuttleState)
  have hc : shuttleConfirmed (shuttleDirs [({ x := 0, y := 0 } : Landmark)] 1
      (⟨[], ["backward", "backward"], [], 0, "Running Towards", some "forward",
        some 0, some 200, 30⟩ : ShuttleState)) = some "backward" := by
    norm_num [shuttleConfirmed, shuttleDirs, shuttleSm, shuttleCurrentX,
      listAvg, pushHist, List.get?]
  exact ⟨h.2.1.mpr ⟨by simp, by simp, by simp, hc, by simp⟩, h.1⟩

/-- C1 fails on the code: `verticalJumpFrameAnalysis` reads `landmarks[23]`
with no guard, so a non-empty frame missing the hip landmarks throws a
TypeError instead of skipping the frame. -/
theorem C1_counterexample_vertical_jump_throws :
    verticalJumpFrameAnalysis [({ x := 0, y := 0 } : Landmark)] 1 1 0
      (initVerticalJumpState 30) = .error () := rfl

/-- C1 (amended): the push-up, sit-up and pull-up frame analyses recover
from a missing elbow-channel landmark by skipping the frame — the smoothing
buffer is not pushed and the call returns normally with no event — but the
vertical-jump and sit-and-reach frame analyses throw (a TypeError on an
`undefined` landmark) whenever the frame is non-empty and a hip
(respectively foot or wrist) landmark is absent. -/
theorem C1_missing_landmark_behavior (lm : List Landmark) (w h t : ℚ)
    (sp : PushupState ℝ) (su : SitupState ℝ) (sl : PullupState ℝ)
    (sv : VerticalJumpState) (sr : SitReachState) :
    ((averageAngleBetween lm w h 11 13 15 = none ∨
      averageAngleBetween lm w h 12 14 16 = none) →
      pushupFrameAnalysis lm w h t sp = (sp, none) ∧
      situpFrameAnalysis lm w h t su = (su, none) ∧
      (pullupFrameAnalysis lm w h t sl).2 = none ∧
      (pullupFrameAnalysis lm w h t sl).1.angleHistory = sl.angleHistory ∧
      (pullupFrameAnalysis lm w h t sl).1.reps = sl.reps) ∧
    (¬lm.isEmpty → (lm.get? 23 = none ∨ lm.get? 24 = none) →
      verticalJumpFrameAnalysis lm w h t sv = .error ()) ∧
    (¬lm.isEmpty →
      (lm.get? 31 = none ∨ lm.get? 32 = none ∨ lm.get? 15 = none ∨ lm.get? 16 = none) →
      sitReachFrameAnalysis lm w h t sr = .error ()) := by
  refine ⟨fun hmiss => ?_, fun hne hmiss => ?_, fun hne hmiss => ?_⟩
  · have hnull : (match averageAngleBetween lm w h 11 13 15,
        averageAngleBetween lm w h 12 14 16 with
      | some x, some y => some ((x + y) / 2)
      | _, _ => (none : Option ℝ)) = none := by
      rcases hmiss with hm | hm <;> rw [hm] <;>
        cases averageAngleBetween lm w h 11 13 15 <;>
        cases averageAngleBetween lm w h 12 14 16 <;> simp_all
    refine ⟨?_, ?_, ?_, ?_, ?_⟩ <;>
      simp only [pushupFrameAnalysis, situpFrameAnalysis, pullupFrameAnalysis] <;>
      rcases hmiss with hm | hm <;>
      rcases h1 : averageAngleBetween lm w h 11 13 15 with _ | a1 <;>
      rcases h2 : averageAngleBetween lm w h 12 14 16 with _ | a2 <;>
      simp_all <;>
      split_ifs <;> simp_all
  · simp only [verticalJumpFrameAnalysis, hne]
    rcases hmiss with hm | hm <;> rw [hm] <;>
      cases lm.get? 23 <;> cases lm.get? 24 <;> simp_all
  · simp only [sitReachFrameAnalysis, hne]
    rcases hmiss with hm | hm | hm | hm <;> rw [hm] <;>
      cases lm.get? 31 <;> cases lm.get? 32 <;>
      cases lm.get? 15 <;> cases lm.get? 16 <;> simp_all

/-- C1 witness: a one-landmark frame (all joints beyond the nose missing) is
skipped by the push-up analysis but throws in the vertical-jump and
sit-and-reach analyses. -/
theorem C1_missing_landmark_witness :
    pushupFrameAnalysis [({ x := 0, y := 0 } : Landmark)] 1 1 0
      (initPushupState 30 : PushupState ℝ) = (initPushupState 30, none) ∧
    verticalJumpFrameAnalysis [({ x := 0, y := 0 } : Landmark)] 1 1 0
      (initVerticalJumpState 30) = .error () ∧
    sitReachFrameAnalysis [({ x := 0, y := 0 } : Landmark)] 1 1 0
      (initSitReachState 30) = .error () := by
  have h := C1_missing_landmark_behavior [({ x := 0, y := 0 } : Landmark)] 1 1 0
    (initPushupState 30 : PushupState ℝ) (initSitupState 30) (initPullupState 30)
    (initVerticalJumpState 30) (initSitReachState 30)
  exact ⟨(h.1 (Or.inl rfl)).1, h.2.1 (by simp) (Or.inl rfl), h.2.2 (by simp) (Or.inl rfl)⟩

/-- C4 fails on the code: feeding a baseline frame (hips at 400 px) and then
a takeoff frame (hips at 0 px, smoothed 200 < 380) leaves the session with a
jump STILL IN FLIGHT whose ledger entry is already present — with
`landing_time = none` and zero height/air-time — and the summary counts it
(`count = 1`), rather than omitting it. -/
theorem C4_counterexample_inflight_in_ledger :
    vjSessionRun [(hipFrame 400, 1), (hipFrame 0, 2)] 1 1 (initVerticalJumpState 30) =
      .ok ⟨[400, 0], some 400, true, some 200, 1, [⟨2, none, 0, 0⟩], 30⟩ ∧
    summarizeVerticalJump [⟨2, none, 0, 0⟩] = ⟨1, 0, 0⟩ := by
  have h400a : (hipFrame 400)[23]? = some { x := 0, y := 400 } := rfl
  have h400b : (hipFrame 400)[24]? = some { x := 0, y := 400 } := rfl
  have h0a : (hipFrame 0)[23]? = some { x := 0, y := 0 } := rfl
  have h0b : (hipFrame 0)[24]? = some { x := 0, y := 0 } := rfl
  have hne : (hipFrame 400).isEmpty = false := rfl
  have hne0 : (hipFrame 0).isEmpty = false := rfl
  have hstep1 : verticalJumpFrameAnalysis (hipFrame 400) 1 1 1 (initVerticalJumpState 30) =
      .ok (⟨[400], some 400, false, none, 0, [], 30⟩, none) := by
    norm_num [verticalJumpFrameAnalysis, h400a, h400b, hne, vjStep, vjSm, lmXY,
      listAvg, pushHist, initVerticalJumpState]
  have hstep2 : verticalJumpFrameAnalysis (hipFrame 0) 1 1 2
      (⟨[400], some 400, false, none, 0, [], 30⟩ : VerticalJumpState) =
      .ok (⟨[400, 0], some 400, true, some 200, 1, [⟨2, none, 0, 0⟩], 30⟩, none) := by
    norm_num [verticalJumpFrameAnalysis, h0a, h0b, hne0, vjStep, vjSm, lmXY,
      listAvg, pushHist, Option.some_ne_none]
  constructor
  · simp only [vjSessionRun, hstep1, hstep2]
  · norm_num [summarizeVerticalJump, toFixed, round_eq]

/-- C4 (amended): a vertical-jump ledger entry is appended already at
TAKEOFF, with `landing_time = null` and zero height/air-time; landing then
updates that last entry in place (the ledger length does not change and the
entry receives the landing time); consequently a jump still in flight at
session end remains in the ledger and is included in the summary count,
which always equals the ledger length. -/
theorem C4_ledger_entry_at_takeoff (midHipY t : ℚ) (s : VerticalJumpState) :
    ((¬s.inAir ∧ vjSm midHipY s <
        (if s.baselineY = none then vjSm midHipY s else s.baselineY.getD 0) - 20) →
      Except.map (fun p => (p.1.jumpData, p.1.inAir, p.2)) (vjStep midHipY t s) =
        .ok (s.jumpData ++ [⟨t, none, 0, 0⟩], true, none)) ∧
    ((s.inAir = true ∧ s.jumpData ≠ [] ∧ vjSm midHipY s ≥
        (if s.baselineY = none then vjSm midHipY s else s.baselineY.getD 0) - 5) →
      Except.map (fun p => (p.1.jumpData.length, Option.map (fun r => r.landing_time) p.2))
          (vjStep midHipY t s) =
        .ok (s.jumpData.length, some (some t))) ∧
    (∀ js : List VerticalJumpRow, (summarizeVerticalJump js).count = js.length) := by
  have hsm : listAvg (pushHist 5 s.hipHistory midHipY) = vjSm midHipY s := rfl
  refine ⟨fun hto => ?_, fun hland => ?_, fun js => ?_⟩
  · simp only [vjStep, hsm]
    split_ifs with hb h1 <;> simp_all [Except.map]
  · obtain ⟨hair, hjd, hge⟩ := hland
    simp only [vjStep, hsm]
    rcases hlast : s.jumpData.getLast? with _ | last
    · exact absurd (List.getLast?_eq_none_iff.mp hlast) hjd
    · split_ifs with hb h1 h2 h3 <;>
        simp_all [Except.map, List.getLast?_eq_none_iff, List.length_dropLast,
          Nat.sub_add_cancel (List.length_pos.mpr hjd)]
  · by_cases hj : js = [] <;> simp [summarizeVerticalJump, hj]

/-- C4 witness: a concrete takeoff (smoothed hip 200 against baseline 400)
appends an in-flight entry with `landing_time = none`; a concrete landing at
t = 1.6 s updates the single-entry ledger in place; the summary counts every
ledger entry. -/
theorem C4_ledger_witness :
    Except.map (fun p => (p.1.jumpData, p.1.inAir, p.2))
        (vjStep (0 : ℚ) 2 ⟨[400], some 400, false, none, 0, [], 30⟩) =
      .ok ([⟨2, none, 0, 0⟩], true, none) ∧
    Except.map (fun p => (p.1.jumpData.length, Option.map (fun r => r.landing_time) p.2))
        (vjStep (400 : ℚ) (16/10)
          ⟨[400, 400, 400, 400, 400], some 400, true, some 340, 1, [⟨1, none, 0, 0⟩], 30⟩) =
      .ok (1, some (some (16/10))) ∧
    (summarizeVerticalJump [⟨2, none, 0, 0⟩]).count = 1 := by
  have h1 := C4_ledger_entry_at_takeoff 0 2
    (⟨[400], some 400, false, none, 0, [], 30⟩ : VerticalJumpState)
  have h2 := C4_ledger_entry_at_takeoff 400 (16/10)
    (⟨[400, 400, 400, 400, 400], some 400, true, some 340, 1,
      [⟨1, none, 0, 0⟩], 30⟩ : VerticalJumpState)
  refine ⟨?_, ?_, ?_⟩
  · have hc := h1.1 ⟨by simp,
      by norm_num [vjSm, listAvg, pushHist, Option.some_ne_none]⟩
    simpa using hc
  · have hc := h2.2.1 ⟨rfl, by simp,
      by norm_num [vjSm, listAvg, pushHist, Option.some_ne_none]⟩
    simpa using hc
  · simpa using h2.2.2 [⟨2, none, 0, 0⟩]

/-- Helper: the clamped arc-cosine formula always lands in [0, 180]
degrees. -/
theorem angle_range (a b c : ℚ × ℚ) : 0 ≤ angle a b c ∧ angle a b c ≤ 180 := by
  simp only [angle]
  constructor
  · exact div_nonneg (mul_nonneg (Real.arccos_nonneg _) (by norm_num)) Real.pi_pos.le
  · rw [div_le_iff₀ Real.pi_pos]
    have harc := Real.arccos_le_pi
      (max (-1) (min 1 ((((a.1 - b.1) * (c.1 - b.1) + (a.2 - b.2) * (c.2 - b.2) : ℚ) : ℝ) /
        (Real.sqrt (((a.1 - b.1 : ℚ) : ℝ) ^ 2 + ((a.2 - b.2 : ℚ) : ℝ) ^ 2) *
          Real.sqrt (((c.1 - b.1 : ℚ) : ℝ) ^ 2 + ((c.2 - b.2 : ℚ) : ℝ) ^ 2) + 1 / 1000000000))))
    linarith [Real.pi_pos]

/-- C6 fails on the code: with all three landmarks present but the A–B
vector degenerate (A = B), `averageAngleBetween` does not return
unavailable — the `1e-9` guard yields cosine 0 and the call returns 90°. -/
theorem C6_counterexample_degenerate_angle :
    averageAngleBetween
      [({ x := 0, y := 0 } : Landmark), { x := 0, y := 0 }, { x := 1, y := 0 }]
      1 1 0 1 2 = some 90 := by
  have hm : averageAngleBetween
      [({ x := 0, y := 0 } : Landmark), { x := 0, y := 0 }, { x := 1, y := 0 }]
      1 1 0 1 2 =
      some (angle (lmXY { x := 0, y := 0 } 1 1) (lmXY { x := 0, y := 0 } 1 1)
        (lmXY { x := 1, y := 0 } 1 1)) := rfl
  rw [hm]
  have ha : angle (lmXY { x := 0, y := 0 } 1 1) (lmXY { x := 0, y := 0 } 1 1)
      (lmXY { x := 1, y := 0 } 1 1) = 90 := by
    simp only [angle, lmXY]
    norm_num [Real.sqrt_zero, Real.sqrt_one, min_def, max_def, Real.arccos_zero]
    rw [div_eq_iff Real.pi_ne_zero]
    ring
  rw [ha]

/-- C6 (amended): whenever all three indexed landmarks are present,
`averageAngleBetween` returns a numeric angle in [0, 180] — even when one of
the vectors is degenerate, in which case the 1e-9 denominator guard yields
≈90° instead of the spec's "unavailable"; it returns null exactly when one
of the three landmarks is missing, and never throws. -/
theorem C6_angle_availability (lm : List Landmark) (w h : ℚ) (i j k : ℕ) :
    (((lm.get? i).isSome ∧ (lm.get? j).isSome ∧ (lm.get? k).isSome) →
      ∃ θ : ℝ, averageAngleBetween lm w h i j k = some θ ∧ 0 ≤ θ ∧ θ ≤ 180) ∧
    (((lm.get? i).isNone ∨ (lm.get? j).isNone ∨ (lm.get? k).isNone) →
      averageAngleBetween lm w h i j k = none) := by
  constructor
  · rintro ⟨hi, hj, hk⟩
    rcases Option.isSome_iff_exists.mp hi with ⟨a, ha⟩
    rcases Option.isSome_iff_exists.mp hj with ⟨b, hb⟩
    rcases Option.isSome_iff_exists.mp hk with ⟨c, hc⟩
    refine ⟨angle (lmXY a w h) (lmXY b w h) (lmXY c w h), ?_,
      (angle_range _ _ _).1, (angle_range _ _ _).2⟩
    simp [averageAngleBetween, ← List.get?_eq_getElem?, ha, hb, hc]
  · intro hmiss
    simp only [averageAngleBetween]
    rcases hmiss with hm | hm | hm <;>
      rw [Option.isNone_iff_eq_none] at hm <;> rw [hm] <;>
      cases lm.get? i <;> cases lm.get? j <;> cases lm.get? k <;> simp_all

/-- C6 witness: on a concrete three-landmark frame the angle is available
and inside [0, 180], while indexing a missing landmark (index 33) yields
null. -/
theorem C6_angle_witness :
    (0 : ℝ) ≤ angle (lmXY { x := 0, y := 0 } 1 1) (lmXY { x := 0, y := 0 } 1 1)
      (lmXY { x := 1, y := 0 } 1 1) ∧
    angle (lmXY { x := 0, y := 0 } 1 1) (lmXY { x := 0, y := 0 } 1 1)
      (lmXY { x := 1, y := 0 } 1 1) ≤ 180 ∧
    averageAngleBetween
      [({ x := 0, y := 0 } : Landmark), { x := 0, y := 0 }, { x := 1, y := 0 }]
      1 1 0 1 33 = none := by
  obtain ⟨θ, hθ, h0, h180⟩ := (C6_angle_availability
    [({ x := 0, y := 0 } : Landmark), { x := 0, y := 0 }, { x := 1, y := 0 }]
    1 1 0 1 2).1 ⟨rfl, rfl, rfl⟩
  have hs : averageAngleBetween
      [({ x := 0, y := 0 } : Landmark), { x := 0, y := 0 }, { x := 1, y := 0 }]
      1 1 0 1 2 =
      some (angle (lmXY { x := 0, y := 0 } 1 1) (lmXY { x := 0, y := 0 } 1 1)
        (lmXY { x := 1, y := 0 } 1 1)) := rfl
  rw [hs] at hθ
  have he := Option.some.inj hθ
  refine ⟨he ▸ h0, he ▸ h180, (C6_angle_availability
    [({ x := 0, y := 0 } : Landmark), { x := 0, y := 0 }, { x := 1, y := 0 }]
    1 1 0 1 33).2 (Or.inr (Or.inr rfl))⟩
